import Mathlib

/-!
Verification development for the conversational voice-agent platform.

The definitions below are a shallow embedding of the Python source:
* `VADProcessor`, `StreamState`, `ASRService` embed `src/core/asr_api.py`
  (energy-based voice-activity detection, per-stream session state, and the
  session registry's audio-processing entry point);
* `VoiceAgent` and `agentLoopStep` embed the orchestrator state and the
  bodies of the background loops of `src/agents/agent.py`
  (audio forwarding, keepalive, transcript polling, sentence pipelining,
  conversation finishing and order extraction).

Audio samples are modelled as exact rationals (the Python code works on
float32 samples obtained from 16-bit PCM by dividing by 32768); machine
time (`time.time()`) is threaded through as an explicit `now` parameter;
the external transcription / generation / extraction capabilities are
passed in as explicit function or result parameters, as they live outside
this repository.
-/

/-! ### VADProcessor (src/core/asr_api.py, lines 61-226) -/

/-- Debug statistics kept by the VAD (`debug_stats` dict). -/
structure VADDebugStats where
  speechSegments : Nat
  silenceSegments : Nat
  utteranceEnds : Nat
  maxSpeechEnergy : ℚ
  minSpeechEnergy : ℚ
  avgSpeechEnergy : ℚ
  speechEnergySamples : Nat
  deriving DecidableEq

/-- The fresh statistics dict built in `VADProcessor.__init__` and `reset`. -/
def freshDebugStats : VADDebugStats :=
  { speechSegments := 0, silenceSegments := 0, utteranceEnds := 0,
    maxSpeechEnergy := 0, minSpeechEnergy := 1, avgSpeechEnergy := 0,
    speechEnergySamples := 0 }

/-- State of `VADProcessor`: configuration (threshold, sample rate and the
four durations converted to sample counts) plus the running counters. -/
structure VADProcessor where
  threshold : ℚ
  sampleRate : Nat
  speechPadSamples : Nat
  minSpeechSamples : Nat
  minSilenceSamples : Nat
  maxSilenceSamples : Nat
  isSpeech : Bool
  silenceCount : Nat
  speechCount : Nat
  paddingCount : Nat
  inPadding : Bool
  debugStats : VADDebugStats
  deriving DecidableEq

/-- `VADProcessor.__init__`: durations in ms are converted once to sample
counts by `int(ms * sample_rate / 1000)` (truncating division). -/
def vadInit (threshold : ℚ) (speechPadMs minSpeechDurationMs minSilenceDurationMs
    sampleRate maxSilenceDurationMs : Nat) : VADProcessor :=
  { threshold := threshold
    sampleRate := sampleRate
    speechPadSamples := speechPadMs * sampleRate / 1000
    minSpeechSamples := minSpeechDurationMs * sampleRate / 1000
    minSilenceSamples := minSilenceDurationMs * sampleRate / 1000
    maxSilenceSamples := maxSilenceDurationMs * sampleRate / 1000
    isSpeech := false
    silenceCount := 0
    speechCount := 0
    paddingCount := 0
    inPadding := false
    debugStats := freshDebugStats }

/-- `np.all(audio_chunk == 0)`: true also for the empty chunk. -/
def allZero (chunk : List ℚ) : Bool :=
  chunk.all (fun x => x == 0)

/-- `np.mean(np.abs(audio_chunk))`; division by zero (empty chunk) yields 0
in Lean, a case no claim exercises. -/
def energyOf (chunk : List ℚ) : ℚ :=
  (chunk.map (fun x => |x|)).sum / (chunk.length : ℚ)

/-- The speech/non-speech verdict for one chunk: all-zero chunks are
unconditionally non-speech, otherwise `energy > threshold`. -/
def classifyChunk (threshold : ℚ) (chunk : List ℚ) : Bool :=
  if allZero chunk then false else decide (threshold < energyOf chunk)

/-- `VADProcessor.update_energy_stats`. -/
def updateEnergyStats (d : VADDebugStats) (energy : ℚ) (isSpeech : Bool) :
    VADDebugStats :=
  if isSpeech then
    let n := d.speechEnergySamples + 1
    { d with speechEnergySamples := n
             avgSpeechEnergy :=
               (d.avgSpeechEnergy * ((n : ℚ) - 1) + energy) / (n : ℚ)
             maxSpeechEnergy := max d.maxSpeechEnergy energy
             minSpeechEnergy := min d.minSpeechEnergy energy }
  else d

/-- `VADProcessor.process`: returns the updated state together with the pair
`(is_speech, utterance_end)` the Python method returns.  The in-place
mutations of the source are modelled by sequential record updates; in the
silence branch `padding_count` receives `len(chunk)` on top of its previous
value when `in_padding` was already set, and on top of 0 otherwise (the
source first sets `in_padding = True; padding_count = 0` when entering
padding, then unconditionally adds the chunk length). -/
def VADProcessor.process (v : VADProcessor) (chunk : List ℚ) :
    VADProcessor × Bool × Bool :=
  let energy := energyOf chunk
  let currentIsSpeech := classifyChunk v.threshold chunk
  let v := { v with debugStats := updateEnergyStats v.debugStats energy currentIsSpeech }
  if currentIsSpeech then
    let speechCount' := v.speechCount + chunk.length
    let isSpeech' := if v.minSpeechSamples ≤ speechCount' then true else v.isSpeech
    ({ v with debugStats := { v.debugStats with speechSegments := v.debugStats.speechSegments + 1 }
              silenceCount := 0
              speechCount := speechCount'
              isSpeech := isSpeech'
              inPadding := false
              paddingCount := 0 }, isSpeech', false)
  else
    let stats' := { v.debugStats with silenceSegments := v.debugStats.silenceSegments + 1 }
    let silenceCount' := v.silenceCount + chunk.length
    if v.isSpeech then
      let paddingCount' := (if v.inPadding then v.paddingCount else 0) + chunk.length
      if v.speechPadSamples ≤ paddingCount' ∧ v.minSilenceSamples ≤ silenceCount' then
        ({ v with debugStats := { stats' with utteranceEnds := stats'.utteranceEnds + 1 }
                  isSpeech := false
                  speechCount := 0
                  silenceCount := 0
                  paddingCount := 0
                  inPadding := false }, false, true)
      else if v.maxSilenceSamples ≤ silenceCount' then
        ({ v with debugStats := { stats' with utteranceEnds := stats'.utteranceEnds + 1 }
                  isSpeech := false
                  speechCount := 0
                  silenceCount := 0
                  paddingCount := 0
                  inPadding := false }, false, true)
      else
        ({ v with debugStats := stats'
                  silenceCount := silenceCount'
                  paddingCount := paddingCount'
                  inPadding := true }, v.isSpeech, false)
    else
      ({ v with debugStats := stats'
                silenceCount := silenceCount' }, v.isSpeech, false)

/-- `VADProcessor.reset`: zero the counters and flags and re-create the
statistics dict; the configuration fields are untouched. -/
def VADProcessor.reset (v : VADProcessor) : VADProcessor :=
  { v with isSpeech := false, silenceCount := 0, speechCount := 0,
           paddingCount := 0, inPadding := false, debugStats := freshDebugStats }

/-! ### A small abstraction of the VAD counters, used only in proofs -/

/-- The five order-sensitive fields of the VAD state machine. -/
structure VADCore where
  isSpeech : Bool
  silenceCount : Nat
  speechCount : Nat
  paddingCount : Nat
  inPadding : Bool
  deriving DecidableEq

/-- The four sample-count limits of a VAD configuration. -/
structure VADLimits where
  speechPad : Nat
  minSpeech : Nat
  minSilence : Nat
  maxSilence : Nat
  deriving DecidableEq

def VADProcessor.core (v : VADProcessor) : VADCore :=
  ⟨v.isSpeech, v.silenceCount, v.speechCount, v.paddingCount, v.inPadding⟩

def VADProcessor.limits (v : VADProcessor) : VADLimits :=
  ⟨v.speechPadSamples, v.minSpeechSamples, v.minSilenceSamples, v.maxSilenceSamples⟩

/-- The counter transition of `VADProcessor.process`, abstracted over the
chunk: only the chunk length and its speech/non-speech classification
matter for the counters and for the returned pair. -/
def coreStep (lim : VADLimits) (c : VADCore) (len : Nat) (cur : Bool) :
    VADCore × Bool × Bool :=
  if cur then
    let speechCount' := c.speechCount + len
    let isSpeech' := if lim.minSpeech ≤ speechCount' then true else c.isSpeech
    (⟨isSpeech', 0, speechCount', 0, false⟩, isSpeech', false)
  else
    let silenceCount' := c.silenceCount + len
    if c.isSpeech then
      let paddingCount' := (if c.inPadding then c.paddingCount else 0) + len
      if lim.speechPad ≤ paddingCount' ∧ lim.minSilence ≤ silenceCount' then
        (⟨false, 0, 0, 0, false⟩, false, true)
      else if lim.maxSilence ≤ silenceCount' then
        (⟨false, 0, 0, 0, false⟩, false, true)
      else
        (⟨c.isSpeech, silenceCount', c.speechCount, paddingCount', true⟩, c.isSpeech, false)
    else
      (⟨c.isSpeech, silenceCount', c.speechCount, c.paddingCount, c.inPadding⟩, c.isSpeech, false)

/-! ### StreamState (src/core/asr_api.py, lines 228-357) -/

/-- The optional `vad_config` dict passed to `StreamState.__init__`
(`vad_config.get(key, default)` lookups). -/
structure VADConfigDict where
  threshold : Option ℚ
  speechPadMs : Option Nat
  minSpeechDurationMs : Option Nat
  minSilenceDurationMs : Option Nat
  maxSilenceDurationMs : Option Nat
  deriving DecidableEq

def emptyVADConfig : VADConfigDict := ⟨none, none, none, none, none⟩

/-- The `VADProcessor(...)` construction in `StreamState.__init__`: defaults
`threshold=0.01`, `speech_pad_ms=300`, `min_speech_duration_ms=100`,
`min_silence_duration_ms=500`, `max_silence_duration_ms=10000`; the sample
rate is not passed and stays at its default 16000. -/
def mkVADFromConfig (cfg : VADConfigDict) : VADProcessor :=
  vadInit (cfg.threshold.getD (1/100)) (cfg.speechPadMs.getD 300)
    (cfg.minSpeechDurationMs.getD 100) (cfg.minSilenceDurationMs.getD 500)
    16000 (cfg.maxSilenceDurationMs.getD 10000)

/-- Per-stream session state. `time.time()` readings are modelled by the
explicit `now` arguments below. -/
structure StreamState where
  streamId : String
  sessionId : String
  vad : VADProcessor
  audioBuffer : List (List ℚ)
  isSpeech : Bool
  lastUpdate : ℚ
  intermediateTranscript : String
  finalTranscript : String
  completedUtterances : List String
  isActive : Bool
  speechDurationSeconds : ℚ
  totalAudioDurationSeconds : ℚ
  utteranceCount : Nat
  lastUtteranceTime : Option ℚ
  createdAt : ℚ
  lastUtteranceEndedAt : Option ℚ
  deriving DecidableEq

/-- `StreamState.__init__`; `sessionId` stands for the generated
`str(uuid.uuid4())` and `now` for `time.time()` at construction. -/
def mkStreamState (streamId sessionId : String) (vadConfig : Option VADConfigDict)
    (now : ℚ) : StreamState :=
  { streamId := streamId
    sessionId := sessionId
    vad := mkVADFromConfig (vadConfig.getD emptyVADConfig)
    audioBuffer := []
    isSpeech := false
    lastUpdate := now
    intermediateTranscript := ""
    finalTranscript := ""
    completedUtterances := []
    isActive := true
    speechDurationSeconds := 0
    totalAudioDurationSeconds := 0
    utteranceCount := 0
    lastUtteranceTime := none
    createdAt := now
    lastUtteranceEndedAt := none }

/-- `StreamState.add_audio`: returns the updated session together with the
`(is_speech, utterance_end, transcript)` triple of the source. -/
def StreamState.addAudio (s : StreamState) (chunk : List ℚ) (sampleRate : Nat)
    (now : ℚ) : StreamState × Bool × Bool × String :=
  let s := { s with lastUpdate := now }
  let chunkDuration : ℚ := (chunk.length : ℚ) / (sampleRate : ℚ)
  let s := { s with totalAudioDurationSeconds := s.totalAudioDurationSeconds + chunkDuration }
  let pr := s.vad.process chunk
  let s := { s with vad := pr.1, isSpeech := pr.2.1 }
  let s := if pr.2.1 then
      { s with audioBuffer := s.audioBuffer ++ [chunk]
               speechDurationSeconds := s.speechDurationSeconds + chunkDuration }
    else s
  let s := if pr.2.2 then
      { s with utteranceCount := s.utteranceCount + 1
               lastUtteranceTime := some now
               lastUtteranceEndedAt := some now }
    else s
  (s, pr.2.1, pr.2.2, s.intermediateTranscript)

/-- `StreamState.get_audio_buffer`: concatenation of the buffered chunks. -/
def StreamState.getAudioBuffer (s : StreamState) : List ℚ :=
  s.audioBuffer.flatten

/-- `StreamState.clear_audio_buffer`. -/
def StreamState.clearAudioBuffer (s : StreamState) : StreamState :=
  { s with audioBuffer := [] }

/-- Python's `str.strip()` with no arguments: remove leading and trailing
whitespace. -/
def pyStrip (s : String) : String :=
  ⟨((s.data.dropWhile Char.isWhitespace).reverse.dropWhile Char.isWhitespace).reverse⟩

/-- `StreamState.add_completed_utterance`: the guard
`if transcript and transcript.strip():` appends only transcripts that are
non-empty and have a non-whitespace character. -/
def StreamState.addCompletedUtterance (s : StreamState) (transcript : String) :
    StreamState :=
  if transcript ≠ "" ∧ pyStrip transcript ≠ "" then
    { s with completedUtterances := s.completedUtterances ++ [transcript]
             finalTranscript := transcript }
  else s

/-- `StreamState.reset`: re-initialize VAD, buffer and transcripts, keep the
ids, and touch the activity timestamp (`update_last_active`). -/
def StreamState.reset (s : StreamState) (now : ℚ) : StreamState :=
  { s with vad := s.vad.reset
           audioBuffer := []
           isSpeech := false
           intermediateTranscript := ""
           finalTranscript := ""
           lastUpdate := now }

/-! ### ASRService (src/core/asr_api.py, lines 359-703)

The NeMo model inference performed inside `process_audio` is an external
capability (spec section 6, Transcription); it is passed in as a
`transcribe` function returning either a transcript or an inference
error. -/

/-- The registry: `session_timeout_sec` plus the `streams` map, modelled as
an association list with unique keys. -/
structure ASRService where
  sessionTimeoutSec : ℚ
  streams : List (String × StreamState)
  deriving DecidableEq

/-- Replace the value stored under `id` (the in-place mutation of
`self.streams[stream_id]`). -/
def updateStream (streams : List (String × StreamState)) (id : String)
    (st : StreamState) : List (String × StreamState) :=
  streams.map (fun p => if p.1 = id then (id, st) else p)

/-- `ASRService.create_stream`: generate an id if absent (`genStreamId`
stands for the generated uuid, `genSessionId` for the uuid generated inside
`StreamState.__init__`); an existing stream is reset in place, otherwise a
fresh `StreamState` is inserted. -/
def ASRService.createStream (svc : ASRService) (streamId : Option String)
    (genStreamId genSessionId : String) (now : ℚ) : ASRService × String :=
  let sid := streamId.getD genStreamId
  match svc.streams.lookup sid with
  | some st => ({ svc with streams := updateStream svc.streams sid (st.reset now) }, sid)
  | none => ({ svc with streams := svc.streams ++ [(sid, mkStreamState sid genSessionId none now)] }, sid)

/-- Little-endian decoding of one 16-bit sample from two bytes
(`np.frombuffer(..., dtype=np.int16)`). -/
def bytesToInt16 (lo hi : Nat) : ℤ :=
  let v := lo + 256 * hi
  if 32768 ≤ v then (v : ℤ) - 65536 else (v : ℤ)

/-- `np.frombuffer(audio_bytes, dtype=np.int16).astype(np.float32) / 32768.0`:
fails exactly when the byte count is odd (buffer size not a multiple of the
element size). -/
def decodePCM16 : List Nat → Option (List ℚ)
  | [] => some []
  | [_] => none
  | lo :: hi :: rest =>
    (decodePCM16 rest).map (fun xs => ((bytesToInt16 lo hi : ℚ) / 32768) :: xs)

/-- The result dict returned by `ASRService.process_audio`. -/
structure ProcessResult where
  streamId : String
  error : Option String
  isSpeech : Bool
  utteranceEnd : Bool
  transcript : String
  isFinal : Bool
  allUtterances : Option (List String)
  deriving DecidableEq

/-- The error dict built when `np.frombuffer` raises. -/
def decodeErrorResult (streamId : String) : ProcessResult :=
  { streamId := streamId
    error := some "Invalid audio data: buffer size must be a multiple of element size"
    isSpeech := false
    utteranceEnd := false
    transcript := ""
    isFinal := false
    allUtterances := none }

/-- `ASRService.process_audio`. The session is auto-created when unknown
(before the bytes are decoded); the chunk is decoded, fed to the session,
and whenever the speech buffer is non-empty the external `transcribe`
capability runs over the whole buffer.  On utterance end a non-blank
transcript is appended to the completed utterances and the buffer is
cleared; otherwise the transcript becomes the intermediate transcript. -/
def ASRService.processAudio (svc : ASRService) (streamId : String)
    (audioBytes : List Nat) (sampleRate : Nat) (now : ℚ) (genSessionId : String)
    (transcribe : List ℚ → Except String String) : ASRService × ProcessResult :=
  let svc := if (svc.streams.lookup streamId).isSome then svc
    else (svc.createStream (some streamId) streamId genSessionId now).1
  let stream := (svc.streams.lookup streamId).getD (mkStreamState streamId genSessionId none now)
  match decodePCM16 audioBytes with
  | none => (svc, decodeErrorResult streamId)
  | some audioNp =>
    let r := stream.addAudio audioNp sampleRate now
    let stream := r.1
    let isSpeech := r.2.1
    let utteranceEnd := r.2.2.1
    let svc := { svc with streams := updateStream svc.streams streamId stream }
    let audioBuffer := stream.getAudioBuffer
    if 0 < audioBuffer.length then
      match transcribe audioBuffer with
      | Except.ok transcript =>
        let stream :=
          if utteranceEnd then
            let stream := if pyStrip transcript ≠ "" then stream.addCompletedUtterance transcript
              else stream
            stream.clearAudioBuffer
          else { stream with intermediateTranscript := transcript }
        let svc := { svc with streams := updateStream svc.streams streamId stream }
        (svc, { streamId := streamId
                error := none
                isSpeech := isSpeech
                utteranceEnd := utteranceEnd
                transcript := if utteranceEnd then stream.finalTranscript
                  else stream.intermediateTranscript
                isFinal := utteranceEnd
                allUtterances := some stream.completedUtterances })
      | Except.error e =>
        (svc, { streamId := streamId
                error := some ("ASR processing error: " ++ e)
                isSpeech := isSpeech
                utteranceEnd := utteranceEnd
                transcript := stream.intermediateTranscript
                isFinal := false
                allUtterances := none })
    else
      (svc, { streamId := streamId
              error := none
              isSpeech := isSpeech
              utteranceEnd := utteranceEnd
              transcript := if utteranceEnd then stream.finalTranscript
                else stream.intermediateTranscript
              isFinal := utteranceEnd
              allUtterances := some stream.completedUtterances })

/-! ### Sentence segmentation and the LLM-to-TTS pipeline
(src/agents/agent.py, lines 1408-1527) -/

/-- The character class of the lookbehind in
`re.split(r'(?<=[.!?])\s+', text)`. -/
def isSentenceEnd (c : Char) : Bool :=
  c == '.' || c == '!' || c == '?'

/-- Worker for `splitIntoSentences`: scan left to right, and split at every
maximal whitespace run whose preceding character is `.`, `!` or `?` (the
semantics of `re.split(r'(?<=[.!?])\s+', text)`, including the empty piece
produced when the text ends with such a run).  `acc` is the current piece in
reverse, `prev` the previously consumed character, and `skipping` records
that the scan is inside a separator run (the greedy `\s+`): while skipping,
further whitespace is consumed silently and the first non-whitespace
character starts the next piece. -/
def splitSentencesAux : List Char → List Char → Option Char → Bool → List (List Char)
  | [], acc, _, _ => [acc.reverse]
  | c :: rest, acc, prev, skipping =>
    if skipping then
      if c.isWhitespace then splitSentencesAux rest acc prev true
      else splitSentencesAux rest [c] (some c) false
    else
      if c.isWhitespace ∧ (match prev with | some p => isSentenceEnd p | none => false) = true then
        acc.reverse :: splitSentencesAux rest [] (some c) true
      else
        splitSentencesAux rest (c :: acc) (some c) false

/-- `VoiceAgent._split_into_sentences`:
`re.split(r'(?<=[.!?])\s+', text)`. -/
def splitIntoSentences (text : String) : List String :=
  (splitSentencesAux text.data [] none false).map (fun l => ⟨l⟩)

/-- One streamed generation fragment arriving in `_process_with_llm`: append
it to the rolling buffer, and when the buffer holds more than one sentence,
synthesize all complete sentences (joined by a space) and retain the last
piece.  Returns the new buffer and the synthesis calls made. -/
def llmBufferStep (buffer chunk : String) : String × List String :=
  let buffer := buffer ++ chunk
  let sentences := splitIntoSentences buffer
  if 1 < sentences.length then
    let completeSentences := sentences.dropLast
    let textToSpeak := String.intercalate " " completeSentences
    (sentences.getLastD "", [textToSpeak])
  else (buffer, [])

/-- The synthesis behaviour of `VoiceAgent._process_with_llm` over a whole
generation stream: fold `llmBufferStep` over the fragments, then at
end-of-stream synthesize the leftover buffer if non-empty.  Returns the
synthesis calls made before end-of-stream and those made at end-of-stream. -/
def processWithLLMSynth (chunks : List String) : List String × List String :=
  let fin := chunks.foldl
    (fun acc chunk =>
      let st := llmBufferStep acc.1 chunk
      (st.1, acc.2 ++ st.2))
    ("", ([] : List String))
  (fin.2, if fin.1 ≠ "" then [fin.1] else [])

/-! ### VoiceAgent (src/agents/agent.py, lines 996-1406)

The orchestrator's mutable flags and the bodies of its background loops.
Each loop iteration is modelled as one atomic step consuming its external
inputs (the next microphone chunk, the reconnect outcome, the received
transcript message) and emitting the externally visible events (frames sent
to the ASR transport, transcripts dispatched to response handling). -/

/-- Orchestrator state: the flag fields of `VoiceAgent.__init__` that the
claims are about.  `hasExtractionApiKey` models
`self.extraction_config.get('api_key')` being present. -/
structure VoiceAgent where
  isRunning : Bool
  isSpeaking : Bool
  connected : Bool
  silentAudioChunk : List Nat
  firstChunk : Bool
  conversationFinished : Bool
  extractedOrder : Option String
  hasExtractionApiKey : Bool
  deriving DecidableEq

/-- `VoiceAgent.__init__`: not running, not speaking, disconnected, default
3200-byte silent chunk, conversation not finished, no extracted order. -/
def initialAgent (hasKey : Bool) : VoiceAgent :=
  { isRunning := false
    isSpeaking := false
    connected := false
    silentAudioChunk := List.replicate 3200 0
    firstChunk := true
    conversationFinished := false
    extractedOrder := none
    hasExtractionApiKey := hasKey }

/-- The successful path of `VoiceAgent.start`: connected, running, fresh
conversation flags. -/
def startAgent (a : VoiceAgent) : VoiceAgent :=
  { a with connected := true, isRunning := true,
           conversationFinished := false, extractedOrder := none }

/-- `VoiceAgent.extract_order`: a no-op without an extraction api key;
otherwise the external extraction capability runs once and its result is
stored (`callResult` is the outcome of `llm_client.extract_order`: a payload
or a raised exception, which leaves `extracted_order` unassigned). -/
def extractOrder (a : VoiceAgent) (callResult : Except String String) : VoiceAgent :=
  if a.hasExtractionApiKey then
    match callResult with
    | Except.ok orderData => { a with extractedOrder := some orderData }
    | Except.error _ => a
  else a

/-- `VoiceAgent.finish_conversation`: no-op unless running; otherwise mark
the conversation finished and run order extraction. -/
def finishConversation (a : VoiceAgent) (callResult : Except String String) :
    VoiceAgent :=
  if a.isRunning then
    extractOrder { a with conversationFinished := true } callResult
  else a

/-- `VoiceAgent.stop`: stop loops and disconnect, then — only if the
conversation was finished and no order has been extracted yet — run
extraction. -/
def stopAgent (a : VoiceAgent) (callResult : Except String String) : VoiceAgent :=
  let a := { a with connected := false, isRunning := false }
  if a.conversationFinished ∧ a.extractedOrder = none then extractOrder a callResult
  else a

/-- A transcription message received by `_check_transcriptions`. -/
structure TranscriptMsg where
  type : String
  isFinal : Bool
  transcript : String
  deriving DecidableEq

/-- `VoiceAgent._handle_transcription`: only `transcription` messages with a
non-blank transcript are considered, and only final ones are dispatched to
`_process_with_llm`.  Returns the transcript handed to response handling,
if any. -/
def handleTranscription (msg : TranscriptMsg) : Option String :=
  if msg.type = "transcription" then
    if pyStrip msg.transcript = "" then none
    else if msg.isFinal then some msg.transcript else none
  else none

/-- Externally visible effects of one loop iteration: an audio frame sent to
the ASR transport, or a final transcript dispatched to response handling. -/
inductive AgentEvent where
  | sendFrame (frame : List Nat)
  | llmDispatch (transcript : String)
  deriving DecidableEq

/-- One iteration of one of the orchestrator's loops, plus the environment
steps that toggle the shared flags (`_process_with_llm` setting and
clearing `is_speaking`, the transport dropping or regaining the
connection). -/
inductive AgentStep where
  | forwardChunk (chunk : List Nat) (reconnectOutcome : Bool)
  | keepaliveTick (idleExceeded : Bool)
  | pollTick (msg : Option TranscriptMsg) (reconnectOutcome : Bool)
  | setSpeaking (b : Bool)
  | setConnected (b : Bool)
  deriving DecidableEq

/-- The loop bodies of `process_audio_stream` (audio forwarding),
`_keepalive_loop` and `_check_transcriptions`, as one atomic step each:

* forwarding: the first chunk fixes the silence template
  (`b'\x00' * len(chunk)`); a disconnected transport triggers reconnection,
  and the chunk is forwarded only when connected and not speaking;
* keepalive: when connected, and the idle threshold has passed or the agent
  is speaking, send the silence template;
* polling: when disconnected attempt reconnection; otherwise a received
  message is handled only when not speaking, and handling dispatches final
  non-blank transcripts to response handling. -/
def agentLoopStep (a : VoiceAgent) (stp : AgentStep) : VoiceAgent × List AgentEvent :=
  match stp with
  | AgentStep.forwardChunk chunk reconnectOutcome =>
    let a := if a.firstChunk then
        { a with silentAudioChunk := List.replicate chunk.length 0, firstChunk := false }
      else a
    let a := if a.connected then a else { a with connected := reconnectOutcome }
    if a.connected ∧ ¬a.isSpeaking then (a, [AgentEvent.sendFrame chunk]) else (a, [])
  | AgentStep.keepaliveTick idleExceeded =>
    if a.connected ∧ (idleExceeded ∨ a.isSpeaking) then
      (a, [AgentEvent.sendFrame a.silentAudioChunk])
    else (a, [])
  | AgentStep.pollTick msg reconnectOutcome =>
    if a.connected then
      match msg with
      | none => (a, [])
      | some m =>
        if a.isSpeaking then (a, [])
        else
          match handleTranscription m with
          | some t => (a, [AgentEvent.llmDispatch t])
          | none => (a, [])
    else ({ a with connected := reconnectOutcome }, [])
  | AgentStep.setSpeaking b => ({ a with isSpeaking := b }, [])
  | AgentStep.setConnected b => ({ a with connected := b }, [])

/-- Whether a step is an iteration of one of the three background loops. -/
def IsLoopStep : AgentStep → Prop
  | AgentStep.forwardChunk _ _ => True
  | AgentStep.keepaliveTick _ => True
  | AgentStep.pollTick _ _ => True
  | AgentStep.setSpeaking _ => False
  | AgentStep.setConnected _ => False

/-- An audio frame all of whose bytes are zero. -/
def allZeroBytes (frame : List Nat) : Bool :=
  frame.all (fun b => b == 0)

/-- Orchestrator states reachable from construction under loop iterations,
start/finish/stop transitions and flag changes by the environment. -/
inductive AgentReachable : VoiceAgent → Prop where
  | init (hasKey : Bool) : AgentReachable (initialAgent hasKey)
  | step (a : VoiceAgent) (stp : AgentStep) :
      AgentReachable a → AgentReachable (agentLoopStep a stp).1
  | start (a : VoiceAgent) : AgentReachable a → AgentReachable (startAgent a)
  | finish (a : VoiceAgent) (r : Except String String) :
      AgentReachable a → AgentReachable (finishConversation a r)
  | stop (a : VoiceAgent) (r : Except String String) :
      AgentReachable a → AgentReachable (stopAgent a r)

/-- Feed a list of chunks through the VAD in order, keeping the final
state. -/
def vadAfter (v : VADProcessor) (chunks : List (List ℚ)) : VADProcessor :=
  chunks.foldl (fun st ch => (st.process ch).1) v

/-! ## Theorems

First the correspondence between `VADProcessor.process` and its counter
abstraction `coreStep`, then general lemmas, then one theorem (and, where
needed, one witness or counterexample) per claim. -/

theorem process_core_spec (v : VADProcessor) (chunk : List ℚ) :
    (v.process chunk).1.core
      = (coreStep v.limits v.core chunk.length (classifyChunk v.threshold chunk)).1
    ∧ (v.process chunk).2
      = (coreStep v.limits v.core chunk.length (classifyChunk v.threshold chunk)).2 := by
  unfold VADProcessor.process coreStep VADProcessor.core VADProcessor.limits
  dsimp only
  split_ifs <;> exact ⟨rfl, rfl⟩

theorem process_config (v : VADProcessor) (chunk : List ℚ) :
    (v.process chunk).1.threshold = v.threshold
    ∧ (v.process chunk).1.limits = v.limits := by
  unfold VADProcessor.process VADProcessor.limits
  dsimp only
  split_ifs <;> exact ⟨rfl, rfl⟩

theorem vadAfter_nil (v : VADProcessor) : vadAfter v [] = v := rfl

theorem vadAfter_cons (v : VADProcessor) (c : List ℚ) (cs : List (List ℚ)) :
    vadAfter v (c :: cs) = vadAfter (v.process c).1 cs := rfl

/-- A chunk that is entirely zero is `allZero`. -/
theorem allZero_of_forall_zero (chunk : List ℚ) (h : ∀ x ∈ chunk, x = 0) :
    allZero chunk = true := by
  simp only [allZero, List.all_eq_true, beq_iff_eq]
  exact h

theorem allZero_replicate (n : Nat) : allZero (List.replicate n (0 : ℚ)) = true :=
  allZero_of_forall_zero _ (fun _ hx => List.eq_of_mem_replicate hx)

/-- An `allZero` chunk has zero mean absolute energy. -/
theorem energyOf_eq_zero_of_allZero (chunk : List ℚ) (h : allZero chunk = true) :
    energyOf chunk = 0 := by
  simp only [allZero, List.all_eq_true, beq_iff_eq] at h
  have hsum : (chunk.map (fun x => |x|)).sum = 0 := by
    apply List.sum_eq_zero
    intro y hy
    obtain ⟨x, hx, rfl⟩ := List.mem_map.1 hy
    simp [h x hx]
  simp [energyOf, hsum]

/-- Mean absolute energy of a constant chunk. -/
theorem energyOf_replicate (n : Nat) (hn : n ≠ 0) (x : ℚ) :
    energyOf (List.replicate n x) = |x| := by
  simp only [energyOf, List.map_replicate, List.sum_replicate, List.length_replicate,
    nsmul_eq_mul]
  rw [mul_comm]
  exact mul_div_cancel_right₀ _ (show (n : ℚ) ≠ 0 from Nat.cast_ne_zero.mpr hn)

/-- With a nonnegative threshold, a chunk whose energy exceeds the threshold
is classified as speech. -/
theorem classifyChunk_true (threshold : ℚ) (chunk : List ℚ)
    (h0 : 0 ≤ threshold) (h : threshold < energyOf chunk) :
    classifyChunk threshold chunk = true := by
  unfold classifyChunk
  have hz : allZero chunk = false := by
    by_contra hcon
    have : allZero chunk = true := by
      cases hh : allZero chunk
      · exact absurd hh hcon
      · rfl
    rw [energyOf_eq_zero_of_allZero chunk this] at h
    exact absurd (lt_of_le_of_lt h0 h) (lt_irrefl 0)
  simp [hz, h]

/-- All-zero chunks, and chunks with energy at most the threshold, are
classified as non-speech. -/
theorem classifyChunk_false (threshold : ℚ) (chunk : List ℚ)
    (h : allZero chunk = true ∨ energyOf chunk ≤ threshold) :
    classifyChunk threshold chunk = false := by
  unfold classifyChunk
  rcases h with h | h
  · simp [h]
  · by_cases hz : allZero chunk
    · simp [hz]
    · simp [hz, not_lt.2 h]

/-- Either a `coreStep` reports no utterance end, or it leaves a completely
fresh counter state and reports non-speech. -/
theorem coreStep_cases (lim : VADLimits) (c : VADCore) (len : Nat) (cur : Bool) :
    (coreStep lim c len cur).2.2 = false
    ∨ ((coreStep lim c len cur).1 = ⟨false, 0, 0, 0, false⟩
       ∧ (coreStep lim c len cur).2.1 = false
       ∧ (coreStep lim c len cur).2.2 = true) := by
  unfold coreStep
  iterate 6 (all_goals (try (split <;> try simp_all)))

/-- Any `coreStep` that reports an utterance end leaves a completely fresh
counter state and reports non-speech. -/
theorem coreStep_end (lim : VADLimits) (c : VADCore) (len : Nat) (cur : Bool)
    (h : (coreStep lim c len cur).2.2 = true) :
    (coreStep lim c len cur).1 = ⟨false, 0, 0, 0, false⟩
    ∧ (coreStep lim c len cur).2.1 = false := by
  rcases coreStep_cases lim c len cur with hc | hc
  · rw [h] at hc; cases hc
  · exact ⟨hc.1, hc.2.1⟩

/-- `pyStrip` returns the empty string exactly when every character of the
input is whitespace (in particular for the empty string). -/
theorem pyStrip_eq_empty_iff (t : String) :
    pyStrip t = "" ↔ ∀ c ∈ t.data, c.isWhitespace = true := by
  constructor
  · intro h c hc
    have hdata : ((t.data.dropWhile Char.isWhitespace).reverse.dropWhile
        Char.isWhitespace).reverse = [] := by
      simpa [pyStrip] using congrArg String.data h
    rw [List.reverse_eq_nil_iff, List.dropWhile_eq_nil_iff] at hdata
    have hdrop : ∀ x ∈ t.data.dropWhile Char.isWhitespace, x.isWhitespace = true :=
      fun x hx => hdata x (List.mem_reverse.mpr hx)
    rw [← List.takeWhile_append_dropWhile Char.isWhitespace t.data] at hc
    rcases List.mem_append.1 hc with h1 | h1
    · exact List.mem_takeWhile_imp h1
    · exact hdrop c h1
  · intro h
    have h1 : t.data.dropWhile Char.isWhitespace = [] :=
      List.dropWhile_eq_nil_iff.mpr h
    unfold pyStrip
    rw [h1]
    rfl

/-- Claim C2: streaming the generation fragments "Hello world. ", "How are",
" you? Fine" through the response-handling buffer triggers exactly two
synthesis calls before end-of-stream, with texts "Hello world." and
"How are you?", and exactly one more at end-of-stream with text "Fine". -/
theorem sentence_pipelining :
    processWithLLMSynth ["Hello world. ", "How are", " you? Fine"]
      = (["Hello world.", "How are you?"], ["Fine"]) := by
  decide

/-- Claim C6: adding a blank (empty or all-whitespace) transcript leaves the whole
session state — in particular the completed-utterance history — unchanged,
and a transcript with at least one non-whitespace character is appended to
the history. -/
theorem add_completed_utterance_spec (s : StreamState) (t : String) :
    ((∀ c ∈ t.data, c.isWhitespace = true) → s.addCompletedUtterance t = s)
    ∧ ((∃ c ∈ t.data, c.isWhitespace = false) →
        (s.addCompletedUtterance t).completedUtterances
          = s.completedUtterances ++ [t]) := by
  constructor
  · intro h
    unfold StreamState.addCompletedUtterance
    rw [if_neg]
    intro hcon
    exact hcon.2 ((pyStrip_eq_empty_iff t).mpr h)
  · rintro ⟨c, hc, hw⟩
    unfold StreamState.addCompletedUtterance
    rw [if_pos]
    constructor
    · intro ht
      rw [ht] at hc
      exact absurd hc (List.not_mem_nil c)
    · intro hst
      rw [(pyStrip_eq_empty_iff t).mp hst c hc] at hw
      exact absurd hw (by simp)

/-- Witness for C6 at concrete inputs: a whitespace-only transcript is a
complete no-op, and a real transcript is appended. -/
theorem add_completed_utterance_spec_witness :
    (mkStreamState "s" "id" none 0).addCompletedUtterance "   "
      = mkStreamState "s" "id" none 0
    ∧ ((mkStreamState "s" "id" none 0).addCompletedUtterance "hi").completedUtterances
      = ["hi"] := by
  refine ⟨(add_completed_utterance_spec _ "   ").1 (by decide), ?_⟩
  have h := (add_completed_utterance_spec (mkStreamState "s" "id" none 0) "hi").2
    ⟨'h', by decide, by decide⟩
  simpa [mkStreamState] using h

/-- Claim C10: `StreamState.reset` preserves the stream id, the internally
generated session id and the completed-utterance history, while clearing
the VAD state, the audio buffer and both transcripts. -/
theorem stream_reset_spec (s : StreamState) (now : ℚ) :
    (s.reset now).streamId = s.streamId
    ∧ (s.reset now).sessionId = s.sessionId
    ∧ (s.reset now).completedUtterances = s.completedUtterances
    ∧ (s.reset now).vad = s.vad.reset
    ∧ (s.reset now).vad.isSpeech = false
    ∧ (s.reset now).vad.speechCount = 0
    ∧ (s.reset now).vad.silenceCount = 0
    ∧ (s.reset now).vad.paddingCount = 0
    ∧ (s.reset now).vad.inPadding = false
    ∧ (s.reset now).audioBuffer = []
    ∧ (s.reset now).isSpeech = false
    ∧ (s.reset now).intermediateTranscript = ""
    ∧ (s.reset now).finalTranscript = "" :=
  ⟨rfl, rfl, rfl, rfl, rfl, rfl, rfl, rfl, rfl, rfl, rfl, rfl, rfl⟩

/-- Claim C9: whenever `process` reports an utterance end, the same call reports
non-speech and leaves a completely fresh inter-utterance state: all three
counters zero and the padding flag cleared. -/
theorem process_end_fresh_state (v : VADProcessor) (chunk : List ℚ)
    (h : (v.process chunk).2.2 = true) :
    (v.process chunk).2.1 = false
    ∧ (v.process chunk).1.isSpeech = false
    ∧ (v.process chunk).1.speechCount = 0
    ∧ (v.process chunk).1.silenceCount = 0
    ∧ (v.process chunk).1.paddingCount = 0
    ∧ (v.process chunk).1.inPadding = false := by
  obtain ⟨h1, h2⟩ := process_core_spec v chunk
  have hend : (coreStep v.limits v.core chunk.length
      (classifyChunk v.threshold chunk)).2.2 = true := by
    rw [← h2]
    exact h
  obtain ⟨hst, hsp⟩ := coreStep_end _ _ _ _ hend
  have hcore : (v.process chunk).1.core = ⟨false, 0, 0, 0, false⟩ := h1.trans hst
  refine ⟨?_, ?_, ?_, ?_, ?_, ?_⟩
  · rw [show (v.process chunk).2.1 = (coreStep v.limits v.core chunk.length
      (classifyChunk v.threshold chunk)).2.1 from congrArg Prod.fst h2]
    exact hsp
  · exact congrArg VADCore.isSpeech hcore
  · exact congrArg VADCore.speechCount hcore
  · exact congrArg VADCore.silenceCount hcore
  · exact congrArg VADCore.paddingCount hcore
  · exact congrArg VADCore.inPadding hcore

/-- Witness for C9: a concrete call that ends an utterance indeed reports
non-speech and resets every counter. -/
theorem process_end_fresh_state_witness :
    (({ vadInit (1/100) 0 100 0 16000 0 with isSpeech := true }.process
        [(0 : ℚ)]).2.2 = true)
    ∧ ({ vadInit (1/100) 0 100 0 16000 0 with isSpeech := true }.process
        [(0 : ℚ)]).2.1 = false
    ∧ ({ vadInit (1/100) 0 100 0 16000 0 with isSpeech := true }.process
        [(0 : ℚ)]).1.speechCount = 0 := by
  have h := process_end_fresh_state
    { vadInit (1/100) 0 100 0 16000 0 with isSpeech := true } [(0 : ℚ)] (by decide)
  exact ⟨by decide, h.1, h.2.2.1⟩

/-- Claim C3: from any speaking state, a silence chunk that drives the silence
counter to the max-silence failsafe forces `utterance_end = true`, whether
or not the padding condition holds. -/
theorem failsafe_forces_end (v : VADProcessor) (chunk : List ℚ)
    (hsp : v.isSpeech = true)
    (hsil : allZero chunk = true ∨ energyOf chunk ≤ v.threshold)
    (hmax : v.maxSilenceSamples ≤ v.silenceCount + chunk.length) :
    (v.process chunk).2.2 = true := by
  have hc : classifyChunk v.threshold chunk = false := classifyChunk_false _ _ hsil
  have h2 := (process_core_spec v chunk).2
  rw [hc] at h2
  rw [show (v.process chunk).2.2 = (coreStep v.limits v.core chunk.length false).2.2
    from congrArg (fun p => p.2) h2]
  unfold coreStep VADProcessor.core VADProcessor.limits
  iterate 6 (all_goals (try (split <;> try simp_all)))

/-- Witness for C3: a concrete state in which only the failsafe (not the
padding condition) fires still ends the utterance. -/
theorem failsafe_forces_end_witness :
    ({ vadInit (1/100) 300 100 500 16000 0 with isSpeech := true }.process
        [(0 : ℚ)]).2.2 = true :=
  failsafe_forces_end _ _ rfl (Or.inl (by decide)) (by decide)

/-- Effects of a non-speech `coreStep` on the counters. -/
theorem coreStep_silence (lim : VADLimits) (c : VADCore) (len : Nat) :
    ((coreStep lim c len false).2.1 = true → c.isSpeech = true)
    ∧ ((coreStep lim c len false).1.isSpeech = true → c.isSpeech = true)
    ∧ (coreStep lim c len false).1.speechCount ≤ c.speechCount
    ∧ ((coreStep lim c len false).2.2 = false →
        (coreStep lim c len false).1.silenceCount = c.silenceCount + len
        ∧ (coreStep lim c len false).1.speechCount = c.speechCount)
    ∧ ((coreStep lim c len false).2.2 = true →
        (coreStep lim c len false).1.silenceCount = 0
        ∧ (coreStep lim c len false).1.speechCount = 0) := by
  unfold coreStep
  iterate 6 (all_goals (try (split <;> try simp_all)))

/-- Claim C7, as stated, fails: when the chunk's silence drives the state over an
utterance boundary, the silence counter is reset to zero rather than
incremented by the chunk length.  Here the all-zero one-sample chunk ends
the utterance, so the post silence counter is 0 while the claim demands
0 + 1 = 1. -/
theorem allzero_silence_increment_cex :
    allZero [(0 : ℚ)] = true
    ∧ ({ vadInit (1/100) 0 100 0 16000 10000 with isSpeech := true }.process
        [(0 : ℚ)]).1.silenceCount = 0
    ∧ { vadInit (1/100) 0 100 0 16000 10000 with
        isSpeech := true : VADProcessor }.silenceCount + ([(0 : ℚ)]).length = 1 := by
  refine ⟨by decide, by decide, by decide⟩

/-- Claim C7 (amended): for every VAD state and every threshold (zero and negative
included), an all-zero chunk is classified as non-speech: the call never
newly sets `is_speech`, the speech counter never increases, and the silence
counter becomes the old count plus the chunk length — except when that very
increase triggers an utterance end, in which case all counters are reset to
zero. -/
theorem allzero_chunk_nonspeech (v : VADProcessor) (chunk : List ℚ)
    (h : ∀ x ∈ chunk, x = 0) :
    ((v.process chunk).2.1 = true → v.isSpeech = true)
    ∧ ((v.process chunk).1.isSpeech = true → v.isSpeech = true)
    ∧ (v.process chunk).1.speechCount ≤ v.speechCount
    ∧ ((v.process chunk).2.2 = false →
        (v.process chunk).1.silenceCount = v.silenceCount + chunk.length
        ∧ (v.process chunk).1.speechCount = v.speechCount)
    ∧ ((v.process chunk).2.2 = true →
        (v.process chunk).1.silenceCount = 0
        ∧ (v.process chunk).1.speechCount = 0) := by
  have hz : allZero chunk = true := allZero_of_forall_zero chunk h
  have hc : classifyChunk v.threshold chunk = false := classifyChunk_false _ _ (Or.inl hz)
  obtain ⟨h1, h2⟩ := process_core_spec v chunk
  rw [hc] at h1 h2
  have e1 : (v.process chunk).2.1 = (coreStep v.limits v.core chunk.length false).2.1 :=
    congrArg Prod.fst h2
  have e2 : (v.process chunk).2.2 = (coreStep v.limits v.core chunk.length false).2.2 :=
    congrArg (fun p => p.2) h2
  have e3 : (v.process chunk).1.isSpeech
      = (coreStep v.limits v.core chunk.length false).1.isSpeech :=
    congrArg VADCore.isSpeech h1
  have e4 : (v.process chunk).1.speechCount
      = (coreStep v.limits v.core chunk.length false).1.speechCount :=
    congrArg VADCore.speechCount h1
  have e5 : (v.process chunk).1.silenceCount
      = (coreStep v.limits v.core chunk.length false).1.silenceCount :=
    congrArg VADCore.silenceCount h1
  have hcs := coreStep_silence v.limits v.core chunk.length
  refine ⟨?_, ?_, ?_, ?_, ?_⟩
  · rw [e1]; exact hcs.1
  · rw [e3]; exact hcs.2.1
  · rw [e4]; exact hcs.2.2.1
  · rw [e2, e5, e4]; exact hcs.2.2.2.1
  · rw [e2, e5, e4]; exact hcs.2.2.2.2

/-- Witness for C7 (amended) at a concrete state: an all-zero two-sample
chunk on a fresh default VAD adds 2 to the silence counter and leaves the
speech counter alone. -/
theorem allzero_chunk_nonspeech_witness :
    ((mkVADFromConfig emptyVADConfig).process [(0 : ℚ), 0]).1.silenceCount
      = (mkVADFromConfig emptyVADConfig).silenceCount + ([(0 : ℚ), 0]).length
    ∧ ((mkVADFromConfig emptyVADConfig).process [(0 : ℚ), 0]).1.speechCount
      = (mkVADFromConfig emptyVADConfig).speechCount := by
  exact (allzero_chunk_nonspeech (mkVADFromConfig emptyVADConfig) [(0 : ℚ), 0]
    (by decide)).2.2.2.1 (by decide)

/-- Claim C1: on the default VAD configuration (threshold 0.01, sample rate 16000,
min speech 100 ms = 1600 samples, speech pad 300 ms = 4800 samples, min
silence 500 ms = 8000 samples, default max silence 10 s), starting fresh:
one 1600-sample chunk with energy above the threshold yields
`is_speech = true` on that same call; following it with 1600-sample silence
chunks, the first three silence chunks yield `utterance_end = false`
(4800 silence samples) and the fifth yields `utterance_end = true`
(8000 silence samples, padding already at least 4800). -/
theorem vad_activation_and_timing
    (c s1 s2 s3 s4 s5 : List ℚ)
    (hc : c.length = 1600)
    (he : (mkVADFromConfig emptyVADConfig).threshold < energyOf c)
    (hl1 : s1.length = 1600)
    (hq1 : allZero s1 = true ∨ energyOf s1 ≤ (mkVADFromConfig emptyVADConfig).threshold)
    (hl2 : s2.length = 1600)
    (hq2 : allZero s2 = true ∨ energyOf s2 ≤ (mkVADFromConfig emptyVADConfig).threshold)
    (hl3 : s3.length = 1600)
    (hq3 : allZero s3 = true ∨ energyOf s3 ≤ (mkVADFromConfig emptyVADConfig).threshold)
    (hl4 : s4.length = 1600)
    (hq4 : allZero s4 = true ∨ energyOf s4 ≤ (mkVADFromConfig emptyVADConfig).threshold)
    (hl5 : s5.length = 1600)
    (hq5 : allZero s5 = true ∨ energyOf s5 ≤ (mkVADFromConfig emptyVADConfig).threshold) :
    ((mkVADFromConfig emptyVADConfig).process c).2.1 = true
    ∧ ((vadAfter (mkVADFromConfig emptyVADConfig) [c]).process s1).2.2 = false
    ∧ ((vadAfter (mkVADFromConfig emptyVADConfig) [c, s1]).process s2).2.2 = false
    ∧ ((vadAfter (mkVADFromConfig emptyVADConfig) [c, s1, s2]).process s3).2.2 = false
    ∧ ((vadAfter (mkVADFromConfig emptyVADConfig) [c, s1, s2, s3, s4]).process s5).2.2
        = true := by
  simp only [vadAfter_cons, vadAfter_nil]
  set v0 := mkVADFromConfig emptyVADConfig with hv0
  have hth0 : v0.threshold = 1/100 := by rw [hv0]; rfl
  have hlim0 : v0.limits = ⟨4800, 1600, 8000, 160000⟩ := by rw [hv0]; decide
  have hcore0 : v0.core = ⟨false, 0, 0, 0, false⟩ := by rw [hv0]; decide
  have stepSil : ∀ (w : VADProcessor) (s : List ℚ), w.threshold = 1/100 →
      w.limits = ⟨4800, 1600, 8000, 160000⟩ → s.length = 1600 →
      (allZero s = true ∨ energyOf s ≤ (1/100 : ℚ)) →
      ((w.process s).1.core
          = (coreStep ⟨4800, 1600, 8000, 160000⟩ w.core 1600 false).1
       ∧ (w.process s).2
          = (coreStep ⟨4800, 1600, 8000, 160000⟩ w.core 1600 false).2) := by
    intro w s hth hlim hlen hsil
    have hcls : classifyChunk w.threshold s = false := by
      apply classifyChunk_false
      rw [hth]
      exact hsil
    have hspec := process_core_spec w s
    rw [hcls, hlen, hlim] at hspec
    exact hspec
  have hq1' : allZero s1 = true ∨ energyOf s1 ≤ (1/100 : ℚ) := by rw [← hth0]; exact hq1
  have hq2' : allZero s2 = true ∨ energyOf s2 ≤ (1/100 : ℚ) := by rw [← hth0]; exact hq2
  have hq3' : allZero s3 = true ∨ energyOf s3 ≤ (1/100 : ℚ) := by rw [← hth0]; exact hq3
  have hq4' : allZero s4 = true ∨ energyOf s4 ≤ (1/100 : ℚ) := by rw [← hth0]; exact hq4
  have hq5' : allZero s5 = true ∨ energyOf s5 ≤ (1/100 : ℚ) := by rw [← hth0]; exact hq5
  have hcls_c : classifyChunk v0.threshold c = true := by
    apply classifyChunk_true
    · rw [hth0]; norm_num
    · exact he
  have hspec_c := process_core_spec v0 c
  rw [hcls_c, hc, hlim0, hcore0] at hspec_c
  have hcore1 : (v0.process c).1.core = ⟨true, 0, 1600, 0, false⟩ := by
    rw [hspec_c.1]; decide
  have hth1 : (v0.process c).1.threshold = 1/100 := by
    rw [(process_config v0 c).1, hth0]
  have hlim1 : (v0.process c).1.limits = ⟨4800, 1600, 8000, 160000⟩ := by
    rw [(process_config v0 c).2, hlim0]
  obtain ⟨hcA1, hrA1⟩ := stepSil _ s1 hth1 hlim1 hl1 hq1'
  rw [hcore1] at hcA1 hrA1
  have hcore2 : ((v0.process c).1.process s1).1.core = ⟨true, 1600, 1600, 1600, true⟩ := by
    rw [hcA1]; decide
  have hth2 : ((v0.process c).1.process s1).1.threshold = 1/100 := by
    rw [(process_config _ _).1, hth1]
  have hlim2 : ((v0.process c).1.process s1).1.limits = ⟨4800, 1600, 8000, 160000⟩ := by
    rw [(process_config _ _).2, hlim1]
  obtain ⟨hcA2, hrA2⟩ := stepSil _ s2 hth2 hlim2 hl2 hq2'
  rw [hcore2] at hcA2 hrA2
  have hcore3 : (((v0.process c).1.process s1).1.process s2).1.core
      = ⟨true, 3200, 1600, 3200, true⟩ := by
    rw [hcA2]; decide
  have hth3 : (((v0.process c).1.process s1).1.process s2).1.threshold = 1/100 := by
    rw [(process_config _ _).1, hth2]
  have hlim3 : (((v0.process c).1.process s1).1.process s2).1.limits
      = ⟨4800, 1600, 8000, 160000⟩ := by
    rw [(process_config _ _).2, hlim2]
  obtain ⟨hcA3, hrA3⟩ := stepSil _ s3 hth3 hlim3 hl3 hq3'
  rw [hcore3] at hcA3 hrA3
  have hcore4 : ((((v0.process c).1.process s1).1.process s2).1.process s3).1.core
      = ⟨true, 4800, 1600, 4800, true⟩ := by
    rw [hcA3]; decide
  have hth4 : ((((v0.process c).1.process s1).1.process s2).1.process s3).1.threshold
      = 1/100 := by
    rw [(process_config _ _).1, hth3]
  have hlim4 : ((((v0.process c).1.process s1).1.process s2).1.process s3).1.limits
      = ⟨4800, 1600, 8000, 160000⟩ := by
    rw [(process_config _ _).2, hlim3]
  obtain ⟨hcA4, hrA4⟩ := stepSil _ s4 hth4 hlim4 hl4 hq4'
  rw [hcore4] at hcA4 hrA4
  have hcore5 : (((((v0.process c).1.process s1).1.process s2).1.process s3).1.process
      s4).1.core = ⟨true, 6400, 1600, 6400, true⟩ := by
    rw [hcA4]; decide
  have hth5 : (((((v0.process c).1.process s1).1.process s2).1.process s3).1.process
      s4).1.threshold = 1/100 := by
    rw [(process_config _ _).1, hth4]
  have hlim5 : (((((v0.process c).1.process s1).1.process s2).1.process s3).1.process
      s4).1.limits = ⟨4800, 1600, 8000, 160000⟩ := by
    rw [(process_config _ _).2, hlim4]
  obtain ⟨hcA5, hrA5⟩ := stepSil _ s5 hth5 hlim5 hl5 hq5'
  rw [hcore5] at hcA5 hrA5
  refine ⟨?_, ?_, ?_, ?_, ?_⟩
  · rw [show (v0.process c).2.1
        = (coreStep ⟨4800, 1600, 8000, 160000⟩ ⟨false, 0, 0, 0, false⟩ 1600 true).2.1
      from congrArg Prod.fst hspec_c.2]
    decide
  · rw [show ((v0.process c).1.process s1).2.2
        = (coreStep ⟨4800, 1600, 8000, 160000⟩ ⟨true, 0, 1600, 0, false⟩ 1600 false).2.2
      from congrArg (fun p => p.2) hrA1]
    decide
  · rw [show (((v0.process c).1.process s1).1.process s2).2.2
        = (coreStep ⟨4800, 1600, 8000, 160000⟩ ⟨true, 1600, 1600, 1600, true⟩ 1600
            false).2.2
      from congrArg (fun p => p.2) hrA2]
    decide
  · rw [show ((((v0.process c).1.process s1).1.process s2).1.process s3).2.2
        = (coreStep ⟨4800, 1600, 8000, 160000⟩ ⟨true, 3200, 1600, 3200, true⟩ 1600
            false).2.2
      from congrArg (fun p => p.2) hrA3]
    decide
  · rw [show ((((((v0.process c).1.process s1).1.process s2).1.process s3).1.process
          s4).1.process s5).2.2
        = (coreStep ⟨4800, 1600, 8000, 160000⟩ ⟨true, 6400, 1600, 6400, true⟩ 1600
            false).2.2
      from congrArg (fun p => p.2) hrA5]
    decide

/-- Witness for C1: a concrete constant chunk of 1600 samples at amplitude
1/2 followed by five all-zero 1600-sample chunks shows the exact activation
and end-of-utterance timing. -/
theorem vad_activation_and_timing_witness :
    ((mkVADFromConfig emptyVADConfig).process (List.replicate 1600 ((1 : ℚ)/2))).2.1
      = true
    ∧ ((vadAfter (mkVADFromConfig emptyVADConfig)
        [List.replicate 1600 ((1 : ℚ)/2)]).process
        (List.replicate 1600 (0 : ℚ))).2.2 = false
    ∧ ((vadAfter (mkVADFromConfig emptyVADConfig)
        [List.replicate 1600 ((1 : ℚ)/2), List.replicate 1600 (0 : ℚ)]).process
        (List.replicate 1600 (0 : ℚ))).2.2 = false
    ∧ ((vadAfter (mkVADFromConfig emptyVADConfig)
        [List.replicate 1600 ((1 : ℚ)/2), List.replicate 1600 (0 : ℚ),
         List.replicate 1600 (0 : ℚ)]).process
        (List.replicate 1600 (0 : ℚ))).2.2 = false
    ∧ ((vadAfter (mkVADFromConfig emptyVADConfig)
        [List.replicate 1600 ((1 : ℚ)/2), List.replicate 1600 (0 : ℚ),
         List.replicate 1600 (0 : ℚ), List.replicate 1600 (0 : ℚ),
         List.replicate 1600 (0 : ℚ)]).process
        (List.replicate 1600 (0 : ℚ))).2.2 = true :=
  vad_activation_and_timing _ _ _ _ _ _ (by rw [List.length_replicate])
    (by
      rw [energyOf_replicate 1600 (by decide) ((1 : ℚ)/2)]
      show (1/100 : ℚ) < |(1 : ℚ)/2|
      rw [abs_of_pos (by norm_num : (0 : ℚ) < 1/2)]
      norm_num)
    (by rw [List.length_replicate]) (Or.inl (allZero_replicate 1600))
    (by rw [List.length_replicate]) (Or.inl (allZero_replicate 1600))
    (by rw [List.length_replicate]) (Or.inl (allZero_replicate 1600))
    (by rw [List.length_replicate]) (Or.inl (allZero_replicate 1600))
    (by rw [List.length_replicate]) (Or.inl (allZero_replicate 1600))

/-- A byte string of odd length cannot be decoded as 16-bit PCM. -/
theorem decodePCM16_none_of_odd (bs : List Nat) (h : bs.length % 2 = 1) :
    decodePCM16 bs = none := by
  induction bs using decodePCM16.induct with
  | case1 => simp at h
  | case2 x => rfl
  | case3 lo hi rest ih =>
    unfold decodePCM16
    rw [ih]
    · rfl
    · simp only [List.length_cons] at h
      omega

/-- Claim C5, as stated, fails: on an unknown session id, a call with an
undecodable (odd-length) byte string still returns a structured decode
error, but it mutates the registry — a fresh session is auto-created before
the bytes are decoded, so the previously empty registry is no longer
empty. -/
theorem process_audio_decode_error_cex :
    ((ASRService.processAudio ⟨300, []⟩ "s" [0] 16000 0 "sid"
        (fun _ => Except.error "")).2.error).isSome = true
    ∧ (ASRService.processAudio ⟨300, []⟩ "s" [0] 16000 0 "sid"
        (fun _ => Except.error "")).1.streams ≠ ([] : List (String × StreamState)) := by
  exact ⟨by decide, by decide⟩

/-- Claim C5 (amended): when the session already exists, a call with an
undecodable (odd-length) byte string returns the structured decode-error
result and leaves the registry — and hence the session's VAD counters,
audio buffer, transcripts and completed-utterance history — completely
unchanged.  (When the session id is unknown, a fresh untouched session is
auto-created before decoding, which is the only registry change such a call
can make.) -/
theorem process_audio_decode_error (svc : ASRService) (streamId : String)
    (audioBytes : List Nat) (sampleRate : Nat) (now : ℚ) (genSessionId : String)
    (transcribe : List ℚ → Except String String)
    (hmem : (svc.streams.lookup streamId).isSome = true)
    (hodd : audioBytes.length % 2 = 1) :
    ASRService.processAudio svc streamId audioBytes sampleRate now genSessionId
      transcribe = (svc, decodeErrorResult streamId) := by
  unfold ASRService.processAudio
  rw [decodePCM16_none_of_odd audioBytes hodd]
  simp [hmem]

/-- Witness for C5 (amended): a registry holding one session is untouched by
an odd-length audio frame for that session. -/
theorem process_audio_decode_error_witness :
    ASRService.processAudio ⟨300, [("s", mkStreamState "s" "sid" none 0)]⟩ "s" [0]
      16000 0 "sid2" (fun _ => Except.error "")
      = (⟨300, [("s", mkStreamState "s" "sid" none 0)]⟩, decodeErrorResult "s") :=
  process_audio_decode_error _ _ _ _ _ _ _ (by decide) (by decide)

/-- Claim C8, as stated, fails: the extracted-order payload is not write-once.
Each `finish_conversation` call re-runs extraction unconditionally and
overwrites the stored payload, so two closing-phrase completions whose
external extraction calls return different payloads leave the second
payload in place of the first. -/
theorem extracted_order_overwrite_cex :
    (finishConversation (startAgent (initialAgent true))
        (Except.ok "order A")).extractedOrder = some "order A"
    ∧ (finishConversation (finishConversation (startAgent (initialAgent true))
        (Except.ok "order A")) (Except.ok "order B")).extractedOrder = some "order B"
    ∧ some "order B" ≠ some "order A" := by
  exact ⟨by decide, by decide, by decide⟩

/-- Claim C8 (amended): only the `stop()` path is guarded: once a payload has been
stored, `stop()` never replaces it (it runs extraction only when no payload
is stored).  Repeated `finish_conversation` calls, by contrast, re-run
extraction and may overwrite the payload. -/
theorem stop_preserves_extracted_order (a : VoiceAgent) (r : Except String String)
    (o : String) (h : a.extractedOrder = some o) :
    (stopAgent a r).extractedOrder = some o := by
  simp [stopAgent, h]

/-- Witness for C8 (amended): a concrete stop() call on an agent holding a
payload leaves the payload in place. -/
theorem stop_preserves_extracted_order_witness :
    (stopAgent { startAgent (initialAgent true) with
        conversationFinished := true, extractedOrder := some "kept" }
      (Except.ok "other")).extractedOrder = some "kept" :=
  stop_preserves_extracted_order _ _ "kept" rfl

/-- The silence template is the all-zero frame in every reachable
orchestrator state: it starts as 3200 zero bytes and is only ever replaced
by `b'\x00' * len(chunk)` when the first chunk arrives. -/
theorem reachable_silent_allzero (a : VoiceAgent) (h : AgentReachable a) :
    allZeroBytes a.silentAudioChunk = true := by
  induction h with
  | init hasKey =>
    simp only [initialAgent, allZeroBytes, List.all_eq_true, beq_iff_eq]
    intro x hx
    exact List.eq_of_mem_replicate hx
  | step a stp ha ih =>
    cases stp with
    | forwardChunk chunk ro =>
      unfold agentLoopStep
      have hrep : allZeroBytes (List.replicate chunk.length 0) = true := by
        simp only [allZeroBytes, List.all_eq_true, beq_iff_eq]
        intro x hx
        exact List.eq_of_mem_replicate hx
      iterate 6 (all_goals (try (split <;> try simp_all)))
    | keepaliveTick idle =>
      unfold agentLoopStep
      iterate 6 (all_goals (try (split <;> try simp_all)))
    | pollTick msg ro =>
      unfold agentLoopStep
      iterate 6 (all_goals (try (split <;> try simp_all)))
    | setSpeaking b => exact ih
    | setConnected b => exact ih
  | start a ha ih => exact ih
  | finish a r ha ih =>
    unfold finishConversation extractOrder
    iterate 6 (all_goals (try (split <;> try simp_all)))
  | stop a r ha ih =>
    unfold stopAgent extractOrder
    iterate 6 (all_goals (try (split <;> try simp_all)))

/-- Claim C4: in any reachable orchestrator state with `is_speaking = true`, a
loop iteration of the forwarding, keepalive or polling loop (i) forwards no
real audio — the forwarding loop sends nothing at all, (ii) sends at most
the all-zero silence-template frame (the keepalive loop's frame), and
(iii) dispatches no received transcript to response handling. -/
theorem speaking_suppression (a : VoiceAgent) (stp : AgentStep)
    (hr : AgentReachable a) (hs : a.isSpeaking = true) (hl : IsLoopStep stp) :
    (∀ chunk ro, stp = AgentStep.forwardChunk chunk ro → (agentLoopStep a stp).2 = [])
    ∧ (∀ e ∈ (agentLoopStep a stp).2,
        e = AgentEvent.sendFrame a.silentAudioChunk
        ∧ allZeroBytes a.silentAudioChunk = true)
    ∧ (∀ t, AgentEvent.llmDispatch t ∉ (agentLoopStep a stp).2) := by
  have hz := reachable_silent_allzero a hr
  cases stp with
  | forwardChunk chunk ro =>
    refine ⟨?_, ?_, ?_⟩ <;>
      unfold agentLoopStep <;>
      iterate 6 (all_goals (try (split <;> try simp_all)))
  | keepaliveTick idle =>
    refine ⟨?_, ?_, ?_⟩ <;>
      unfold agentLoopStep <;>
      iterate 6 (all_goals (try (split <;> try simp_all)))
  | pollTick msg ro =>
    refine ⟨?_, ?_, ?_⟩ <;>
      unfold agentLoopStep <;>
      iterate 6 (all_goals (try (split <;> try simp_all)))
  | setSpeaking b => exact absurd hl (by simp [IsLoopStep])
  | setConnected b => exact absurd hl (by simp [IsLoopStep])

/-- Witness for C4: in a concrete reachable speaking state, a keepalive tick
sends only the all-zero silence template, and a polling tick that receives a
final transcription message dispatches nothing. -/
theorem speaking_suppression_witness :
    (∀ e ∈ (agentLoopStep
        ((agentLoopStep (startAgent (initialAgent false))
          (AgentStep.setSpeaking true)).1) (AgentStep.keepaliveTick true)).2,
      e = AgentEvent.sendFrame ((agentLoopStep (startAgent (initialAgent false))
          (AgentStep.setSpeaking true)).1).silentAudioChunk
      ∧ allZeroBytes ((agentLoopStep (startAgent (initialAgent false))
          (AgentStep.setSpeaking true)).1).silentAudioChunk = true)
    ∧ (∀ t, AgentEvent.llmDispatch t ∉ (agentLoopStep
        ((agentLoopStep (startAgent (initialAgent false))
          (AgentStep.setSpeaking true)).1)
        (AgentStep.pollTick (some ⟨"transcription", true, "hello"⟩) true)).2) :=
  ⟨(speaking_suppression
      ((agentLoopStep (startAgent (initialAgent false))
        (AgentStep.setSpeaking true)).1) (AgentStep.keepaliveTick true)
      (AgentReachable.step (startAgent (initialAgent false))
        (AgentStep.setSpeaking true)
        (AgentReachable.start (initialAgent false) (AgentReachable.init false)))
      rfl True.intro).2.1,
   (speaking_suppression
      ((agentLoopStep (startAgent (initialAgent false))
        (AgentStep.setSpeaking true)).1)
      (AgentStep.pollTick (some ⟨"transcription", true, "hello"⟩) true)
      (AgentReachable.step (startAgent (initialAgent false))
        (AgentStep.setSpeaking true)
        (AgentReachable.start (initialAgent false) (AgentReachable.init false)))
      rfl True.intro).2.2⟩
